import Mathlib

/-!
# DKA calculator API — audit-record lifecycle and identity-verification gate

A shallow embedding of `src/index.js`: the second-stage patient hash
(`rehashPatientHash`, SHA-256 over the submitted pre-hash concatenated with a
configured secret), the `POST /calculate` handler (calculation gate, JS falsy
normalization of optional numerics, hash-or-null, record creation) and the
`POST /update` handler (lookup, hash verification, amendment).

The store collaborators (`updateCheck`, `insertCalculateData`, `updateData`),
the clinical-calculation collaborator and the audit-ID generator live outside
`src/` and are modelled from the spec's interface section; they appear as
explicit state or as function parameters of the handlers.  Handlers are pure
state transformers returning the HTTP response, the new store, and a trace of
collaborator-effect events (hash derivation, lookup, insert, update), which
lets order-of-effects claims ("no hashing when lookup fails", "no insert
before the calculation gate passes") be stated directly.

Machine words are `Nat` with explicit `% 2^32`; the SHA-256 compression
function, padding and hex rendering are translated from the FIPS 180-4
algorithm that node's `crypto.createHash("sha256")` implements, and are
validated below against the standard test vectors.
-/

set_option maxRecDepth 8000

namespace DKA

/-! ## SHA-256 over byte lists (`crypto.createHash("sha256")`) -/

/-- 2^32, the word modulus for SHA-256 arithmetic. -/
def M32 : Nat := 4294967296

/-- Right rotation of a 32-bit word. -/
def rotr (n w : Nat) : Nat := ((w >>> n) ||| (w <<< (32 - n))) % M32

/-- SHA-256 Σ₀. -/
def bsig0 (w : Nat) : Nat := rotr 2 w ^^^ rotr 13 w ^^^ rotr 22 w

/-- SHA-256 Σ₁. -/
def bsig1 (w : Nat) : Nat := rotr 6 w ^^^ rotr 11 w ^^^ rotr 25 w

/-- SHA-256 σ₀. -/
def ssig0 (w : Nat) : Nat := rotr 7 w ^^^ rotr 18 w ^^^ (w >>> 3)

/-- SHA-256 σ₁. -/
def ssig1 (w : Nat) : Nat := rotr 17 w ^^^ rotr 19 w ^^^ (w >>> 10)

/-- SHA-256 choice function (the complement is taken within 32 bits). -/
def chF (x y z : Nat) : Nat := (x &&& y) ^^^ ((x ^^^ 4294967295) &&& z)

/-- SHA-256 majority function. -/
def majF (x y z : Nat) : Nat := (x &&& y) ^^^ (x &&& z) ^^^ (y &&& z)

/-- The 64 SHA-256 round constants (FIPS 180-4 §4.2.2, written in decimal). -/
def K256 : List Nat :=
  [1116352408, 1899447441, 3049323471, 3921009573, 961987163, 1508970993,
   2453635748, 2870763221, 3624381080, 310598401, 607225278, 1426881987,
   1925078388, 2162078206, 2614888103, 3248222580, 3835390401, 4022224774,
   264347078, 604807628, 770255983, 1249150122, 1555081692, 1996064986,
   2554220882, 2821834349, 2952996808, 3210313671, 3336571891, 3584528711,
   113926993, 338241895, 666307205, 773529912, 1294757372, 1396182291,
   1695183700, 1986661051, 2177026350, 2456956037, 2730485921, 2820302411,
   3259730800, 3345764771, 3516065817, 3600352804, 4094571909, 275423344,
   430227734, 506948616, 659060556, 883997877, 958139571, 1322822218,
   1537002063, 1747873779, 1955562222, 2024104815, 2227730452, 2361852424,
   2428436474, 2756734187, 3204031479, 3329325298]

/-- SHA-256 working state: eight 32-bit words. -/
structure Hash8 where
  a : Nat
  b : Nat
  c : Nat
  d : Nat
  e : Nat
  f : Nat
  g : Nat
  h : Nat
deriving Repr, DecidableEq

/-- SHA-256 initial hash value (FIPS 180-4 §5.3.3, written in decimal). -/
def initH : Hash8 :=
  ⟨1779033703, 3144134277, 1013904242, 2773480762,
   1359893119, 2600822924, 528734635, 1541459225⟩

/-- One compression round with round constant `kw.1` and schedule word `kw.2`. -/
def round256 (s : Hash8) (kw : Nat × Nat) : Hash8 :=
  let t1 := (s.h + bsig1 s.e + chF s.e s.f s.g + kw.1 + kw.2) % M32
  let t2 := (bsig0 s.a + majF s.a s.b s.c) % M32
  ⟨(t1 + t2) % M32, s.a, s.b, s.c, (s.d + t1) % M32, s.e, s.f, s.g⟩

/-- Big-endian 32-bit word from a list of bytes. -/
def wordOfBytes (l : List Nat) : Nat := l.foldl (fun acc b => acc * 256 + b) 0

/-- The sixteen big-endian words of a 64-byte block. -/
def blockWords (block : List Nat) : List Nat :=
  (List.range 16).map (fun i => wordOfBytes ((block.drop (4 * i)).take 4))

/-- Extend the 16 block words to the 64-word message schedule. -/
def schedule (ws : List Nat) : List Nat :=
  (List.range 48).foldl
    (fun w _ =>
      let i := w.length
      w ++ [(ssig1 (w.getD (i - 2) 0) + w.getD (i - 7) 0 +
             ssig0 (w.getD (i - 15) 0) + w.getD (i - 16) 0) % M32])
    ws

/-- Compress one 64-byte block into the running hash state. -/
def compress (s : Hash8) (block : List Nat) : Hash8 :=
  let w := schedule (blockWords block)
  let t := (K256.zip w).foldl round256 s
  ⟨(s.a + t.a) % M32, (s.b + t.b) % M32, (s.c + t.c) % M32, (s.d + t.d) % M32,
   (s.e + t.e) % M32, (s.f + t.f) % M32, (s.g + t.g) % M32, (s.h + t.h) % M32⟩

/-- SHA-256 padding: append `0x80`, zero bytes up to 56 mod 64, then the
64-bit big-endian bit length. -/
def pad256 (msg : List Nat) : List Nat :=
  let L := msg.length
  let zeros := (119 - (L % 64)) % 64
  let bl := 8 * L
  msg ++ [128] ++ List.replicate zeros 0 ++
    [bl / 72057594037927936 % 256, bl / 281474976710656 % 256,
     bl / 1099511627776 % 256, bl / 4294967296 % 256,
     bl / 16777216 % 256, bl / 65536 % 256, bl / 256 % 256, bl % 256]

/-- The four big-endian bytes of a 32-bit word. -/
def wordBytes (w : Nat) : List Nat :=
  [w / 16777216 % 256, w / 65536 % 256, w / 256 % 256, w % 256]

/-- SHA-256 digest (32 bytes) of a byte list. -/
def sha256 (msg : List Nat) : List Nat :=
  let padded := pad256 msg
  let blocks := (List.range (padded.length / 64)).map
    (fun i => (padded.drop (64 * i)).take 64)
  let s := blocks.foldl compress initH
  wordBytes s.a ++ wordBytes s.b ++ wordBytes s.c ++ wordBytes s.d ++
  wordBytes s.e ++ wordBytes s.f ++ wordBytes s.g ++ wordBytes s.h

/-- Lower-case hex digit for `n < 16` (out-of-range indices fall back into the
same alphabet). -/
def hexDigit (n : Nat) : Char := "0123456789abcdef".data.getD n '0'

/-- The hex alphabet of `.digest("hex")`. -/
def hexChars : List Char := "0123456789abcdef".data

/-- Two-character lower-case hex rendering of one byte. -/
def byteHex (b : Nat) : List Char := [hexDigit (b / 16 % 16), hexDigit (b % 16)]

/-- Lower-case hex string of a byte list, as node's `.digest("hex")` emits. -/
def toHexStr (bytes : List Nat) : String := String.mk (bytes.map byteHex).flatten

/-- UTF-8 encoding of one character, as byte values. -/
def utf8Char (c : Char) : List Nat :=
  let n := c.toNat
  if n < 128 then [n]
  else if n < 2048 then [192 + n / 64, 128 + n % 64]
  else if n < 65536 then [224 + n / 4096, 128 + n / 64 % 64, 128 + n % 64]
  else [240 + n / 262144, 128 + n / 4096 % 64, 128 + n / 64 % 64, 128 + n % 64]

/-- UTF-8 byte values of a string, matching how node's `crypto.update`
consumes a string argument. -/
def utf8Bytes (s : String) : List Nat := (s.data.map utf8Char).flatten

/-- Hex SHA-256 digest of a string. -/
def sha256Hex (s : String) : String := toHexStr (sha256 (utf8Bytes s))

/-! ## The Hasher (`rehashPatientHash`, src/index.js lines 31–35)

The configured secret `keys.salt` lives in `private/keys.json`, which is
deployment configuration outside `src/`; it is threaded through as an explicit
`salt` parameter (the spec's §9 recommendation for testability). -/

/-- `rehashPatientHash` from src/index.js: the hex SHA-256 digest of the
submitted pre-hash concatenated with the configured salt
(`crypto.createHash("sha256").update(patientHash + keys.salt).digest("hex")`). -/
def rehashPatientHash (salt patientHash : String) : String :=
  sha256Hex (patientHash ++ salt)

/-! ## Data model (spec §3, handler usage in src/index.js) -/

/-- The validated `POST /calculate` body (`matchedData(req)`): the fields the
handler inspects, plus an opaque remainder of validated episode fields.
Absent optional fields are `none`. -/
structure Submission where
  patientHash : Option String
  patientPostcode : Option String
  bicarbonate : Option Int
  glucose : Option Int
  ketones : Option Int
  otherFields : List (String × String)
deriving Repr, DecidableEq

/-- Modelled from the spec: the clinical-calculation collaborator's output,
`calculate(inputs) -> {results, errors}` (§6); the results payload is opaque
to the core. -/
structure Calculations where
  errors : List String
  results : List Int
deriving Repr, DecidableEq

/-- The persisted audit record (spec §3). -/
structure AuditRecord where
  auditID : String
  patientHash : Option String
  calculationInputs : Submission
  calculations : Calculations
  preventableFactors : Option (List String)
  clientIP : String
  imdDecile : Option Nat
deriving Repr, DecidableEq

/-- The validated `POST /update` body: identifier, resubmitted pre-hash and
the amendment (outcome / preventable-factors) fields. -/
structure UpdateSubmission where
  auditID : String
  patientHash : String
  preventableFactors : List String
deriving Repr, DecidableEq

/-- Modelled from the spec: the Audit Record Store's state, records keyed by
audit identifier. -/
abbrev Store := List (String × AuditRecord)

/-- HTTP response bodies the two handlers produce. -/
inductive ResponseBody where
  | text (s : String)
  | errorsList (es : List String)
  | calcResult (auditID : String) (calculations : Calculations)
deriving Repr, DecidableEq

/-- An HTTP response: status code and JSON body. -/
structure Response where
  status : Nat
  body : ResponseBody
deriving Repr, DecidableEq

/-- Collaborator-effect events, in the order the handler invokes them. -/
inductive Event where
  | hashEv (preHash : String)
  | lookupEv (auditID : String)
  | insertEv (auditID : String)
  | updateEv (auditID : String)
  | imdEv (postcode : String)
  | genEv
deriving Repr, DecidableEq

/-- A handler run: the response, the store after the run, and the trace of
collaborator effects. -/
structure Outcome where
  resp : Response
  store : Store
  events : List Event
deriving Repr, DecidableEq

/-! ## Store collaborators (modelled from the spec, §6) -/

/-- Modelled from the spec: `lookup(auditID) -> record | absent` — the
`updateCheck` collaborator fetches the record stored under the identifier. -/
def updateCheck (st : Store) (id : String) : Option AuditRecord :=
  match st with
  | [] => none
  | (k, r) :: t => if k = id then some r else updateCheck t id

/-- Modelled from the spec: `insert(record) -> committed`, atomic — the
`insertCalculateData` collaborator persists one new record under its
identifier. -/
def insertCalculateData (st : Store) (id : String) (r : AuditRecord) : Store :=
  (id, r) :: st

/-- Modelled from the spec: `update(auditID, amendmentFields) -> committed` —
the `updateData` collaborator replaces only the outcome/preventable-factors
fields of the record under the identifier; identifier and `patientHash` are
not rewritten (§4.3 step 3). -/
def updateData (st : Store) (u : UpdateSubmission) : Store :=
  match st with
  | [] => []
  | (k, r) :: t =>
    (k, if k = u.auditID
        then { r with preventableFactors := some u.preventableFactors }
        else r) :: updateData t u

/-! ## The handlers (src/index.js lines 55–98 and 107–146) -/

/-- JS truthiness of an optional string (`data.patientHash ? … : null`):
`undefined` and `""` are falsy. -/
def truthyStr : Option String → Bool
  | none => false
  | some s => if s = "" then false else true

/-- The string value of a truthy optional string. -/
def strVal (s : Option String) : String := s.getD ""

/-- JS `x || null` on an optional numeric field: absent stays absent, and a
falsy numeric value (zero) also becomes `null`. -/
def jsOrNull : Option Int → Option Int
  | none => none
  | some x => if x = 0 then none else some x

/-- The normalization step of the calculate handler
(`data.bicarbonate = data.bicarbonate || null;` etc., lines 67–69). -/
def normalizeData (data : Submission) : Submission :=
  { data with
    bicarbonate := jsOrNull data.bicarbonate
    glucose := jsOrNull data.glucose
    ketones := jsOrNull data.ketones }

/-- The record the calculate handler passes to `insertCalculateData`
(lines 67–88): normalized submission, hash-or-null, decile-or-null, fresh
identifier, client IP, calculation output; outcome fields start null. -/
def createdRecord (calcF : Submission → Calculations) (imdF : String → Option Nat)
    (genID salt clientIP : String) (data : Submission) : AuditRecord :=
  { auditID := genID
    patientHash :=
      if truthyStr data.patientHash then some (rehashPatientHash salt (strVal data.patientHash))
      else none
    calculationInputs := normalizeData data
    calculations := calcF data
    preventableFactors := none
    clientIP := clientIP
    imdDecile :=
      if truthyStr data.patientPostcode then imdF (strVal data.patientPostcode)
      else none }

/-- The `POST /calculate` handler (src/index.js lines 55–98).  `calcF` is the
`calculateVariables` collaborator, `imdF` the `getImdDecile` collaborator and
`genID` the identifier produced by `generateAuditID` — all outside `src/`,
passed as parameters. -/
def calculateHandler (calcF : Submission → Calculations) (imdF : String → Option Nat)
    (genID salt clientIP : String) (st : Store) (data : Submission) : Outcome :=
  let calculations := calcF data
  if calculations.errors = [] then
    let record := createdRecord calcF imdF genID salt clientIP data
    { resp := ⟨200, .calcResult genID calculations⟩
      store := insertCalculateData st genID record
      events :=
        (if truthyStr data.patientHash then [Event.hashEv (strVal data.patientHash)] else []) ++
        (if truthyStr data.patientPostcode then [Event.imdEv (strVal data.patientPostcode)] else []) ++
        [Event.genEv, Event.insertEv genID] }
  else
    { resp := ⟨400, .errorsList calculations.errors⟩, store := st, events := [] }

/-- The `POST /update` handler (src/index.js lines 107–146): look up the
record, 404 when absent (no hashing), re-derive the second-stage hash, 401 on
mismatch with no mutation, otherwise amend via `updateData`. -/
def updateHandler (salt : String) (st : Store) (u : UpdateSubmission) : Outcome :=
  match updateCheck st u.auditID with
  | none =>
    { resp := ⟨404, .text ("Audit ID not found in database: " ++ u.auditID)⟩
      store := st
      events := [Event.lookupEv u.auditID] }
  | some check =>
    let patientHash := rehashPatientHash salt u.patientHash
    if check.patientHash = some patientHash then
      { resp := ⟨200, .text "Audit data update complete"⟩
        store := updateData st u
        events := [Event.lookupEv u.auditID, Event.hashEv u.patientHash, Event.updateEv u.auditID] }
    else
      { resp := ⟨401, .text ("Patient NHS number or date of birth do not match for episode with audit ID: " ++ u.auditID)⟩
        store := st
        events := [Event.lookupEv u.auditID, Event.hashEv u.patientHash] }

/-! ## Concrete fixtures for witnesses -/

/-- A collaborator that accepts every submission (empty errors list). -/
def calcOkF : Submission → Calculations := fun _ => ⟨[], []⟩

/-- A collaborator that rejects every submission with one domain error. -/
def calcErrF : Submission → Calculations := fun _ => ⟨["anion gap out of range"], []⟩

/-- A geocoding collaborator that never resolves a decile. -/
def imdNone : String → Option Nat := fun _ => none

/-- A minimal submission with every optional field absent. -/
def subEmpty : Submission := ⟨none, none, none, none, none, []⟩

/-- A submission whose only present optional field is a zero bicarbonate. -/
def subZero : Submission := ⟨none, none, some 0, none, none, []⟩

/-- A submission carrying a pre-hash. -/
def subH : Submission := ⟨some "abc123", none, none, none, none, []⟩

/-- A submission carrying an empty-string pre-hash. -/
def subHashEmpty : Submission := ⟨some "", none, none, none, none, []⟩

/-- A stored record whose hash was derived from pre-hash `"abc123"` under
salt `"s"`. -/
def recFix : AuditRecord :=
  { auditID := "id1"
    patientHash := some (rehashPatientHash "s" "abc123")
    calculationInputs := subEmpty
    calculations := ⟨[], []⟩
    preventableFactors := none
    clientIP := "ip"
    imdDecile := none }

/-- A one-record store holding `recFix`. -/
def stFix : Store := [("id1", recFix)]

/-- An update submission matching `recFix`'s identity. -/
def uFix : UpdateSubmission := ⟨"id1", "abc123", ["pf1"]⟩

/-- An update submission with a wrong pre-hash for `recFix`. -/
def uWrong : UpdateSubmission := ⟨"id1", "wrong", ["pf2"]⟩

/-! # Theorems -/

/-! ## SHA-256 validation against FIPS 180-4 test vectors -/

/-- Test vector: the digest of the empty message. -/
theorem sha256Hex_empty :
    sha256Hex "" = "e3b0c44298fc1c149afbf4c8996fb92427ae41e4649b934ca495991b7852b855" := by
  decide

/-- Test vector: the digest of `"abc"`. -/
theorem sha256Hex_abc :
    sha256Hex "abc" = "ba7816bf8f01cfea414140de5dae2223b00361a396177a9cb410ff61f20015ad" := by
  decide

/-- Test vector: a two-block message. -/
theorem sha256Hex_twoBlock :
    sha256Hex "abcdbcdecdefdefgefghfghighijhijkijkljklmklmnlmnomnopnopq" =
      "248d6a61d20638b8e5c026930c3e6039a33ce45964ff2167f6ecedd419db06c1" := by
  decide

/-! ## Digest shape lemmas -/

/-- A SHA-256 digest is exactly 32 bytes, whatever the message. -/
theorem sha256_length (msg : List Nat) : (sha256 msg).length = 32 := by
  unfold sha256
  simp [wordBytes]

theorem wordBytes_lt {b w : Nat} (hb : b ∈ wordBytes w) : b < 256 := by
  simp only [wordBytes, List.mem_cons, List.not_mem_nil, or_false] at hb
  rcases hb with h | h | h | h <;> subst h <;> exact Nat.mod_lt _ (by norm_num)

/-- Every digest byte is below 256. -/
theorem sha256_mem_lt {b : Nat} (msg : List Nat) (hb : b ∈ sha256 msg) : b < 256 := by
  unfold sha256 at hb
  simp only [List.mem_append, or_assoc] at hb
  rcases hb with h | h | h | h | h | h | h | h <;> exact wordBytes_lt h

theorem hexDigit_mem (n : Nat) : hexDigit n ∈ hexChars := by
  unfold hexDigit hexChars
  by_cases h : n < ("0123456789abcdef".data).length
  · rw [List.getD_eq_getElem _ _ h]
    exact List.getElem_mem h
  · rw [List.getD_eq_getElem?_getD, List.getElem?_eq_none (by omega)]
    decide

/-- Hex rendering doubles the byte count. -/
theorem toHexStr_length (bytes : List Nat) : (toHexStr bytes).length = 2 * bytes.length := by
  show ((bytes.map byteHex).flatten).length = 2 * bytes.length
  induction bytes with
  | nil => rfl
  | cons b t ih =>
    simp only [List.map_cons, List.flatten_cons, List.length_append, ih, byteHex,
      List.length_cons, List.length_nil] at *
    omega

/-- Every character of a hex rendering is in the hex alphabet. -/
theorem toHexStr_mem {c : Char} (bytes : List Nat) (hc : c ∈ (toHexStr bytes).data) :
    c ∈ hexChars := by
  have hmem : c ∈ (bytes.map byteHex).flatten := hc
  rw [List.mem_flatten] at hmem
  obtain ⟨l, hl, hcl⟩ := hmem
  rw [List.mem_map] at hl
  obtain ⟨b, -, rfl⟩ := hl
  simp only [byteHex, List.mem_cons, List.not_mem_nil, or_false] at hcl
  rcases hcl with h | h <;> subst h <;> exact hexDigit_mem _

/-- Pigeonhole: any fixed-salt instance of the second-stage hash collides on
two distinct nonempty pre-hashes — infinitely many strings land in finitely
many 32-byte digests. -/
theorem rehash_collision (salt : String) :
    ∃ p q : String, p ≠ q ∧ p ≠ "" ∧ q ≠ "" ∧
      rehashPatientHash salt p = rehashPatientHash salt q := by
  classical
  let g : String → List Nat := fun s => sha256 (utf8Bytes (("a" ++ s) ++ salt))
  let F : String → (Fin 32 → Fin 256) := fun s i =>
    ⟨(g s).getD i 0, by
      have hlt : (i : Nat) < (g s).length := by rw [sha256_length]; exact i.isLt
      rw [List.getD_eq_getElem _ _ hlt]
      exact sha256_mem_lt _ (List.getElem_mem hlt)⟩
  obtain ⟨s, t, hst, hF⟩ := Finite.exists_ne_map_eq_of_infinite F
  have hg : g s = g t := by
    apply List.ext_getElem (by rw [sha256_length, sha256_length])
    intro n h1 h2
    have h32 : n < 32 := by rw [sha256_length] at h1; exact h1
    have hv := congrArg Fin.val (congrFun hF ⟨n, h32⟩)
    simp only [F] at hv
    rw [← List.getD_eq_getElem (g s) 0 h1, ← List.getD_eq_getElem (g t) 0 h2]
    exact hv
  have hlen1 : ("a" : String).length = 1 := rfl
  have hlen0 : ("" : String).length = 0 := rfl
  refine ⟨"a" ++ s, "a" ++ t, ?_, ?_, ?_, ?_⟩
  · intro he
    apply hst
    have hd := congrArg String.data he
    rw [String.data_append, String.data_append] at hd
    exact String.ext (List.append_cancel_left hd)
  · intro he
    have hlen := congrArg String.length he
    rw [String.length_append, hlen1, hlen0] at hlen
    omega
  · intro he
    have hlen := congrArg String.length he
    rw [String.length_append, hlen1, hlen0] at hlen
    omega
  · show toHexStr (g s) = toHexStr (g t)
    exact congrArg toHexStr hg

/-! ## Handler unfolding lemmas -/

/-- Success shape of the calculate handler: when the calculation collaborator
reports no errors, the handler responds 200 and prepends the created record. -/
theorem calculateHandler_ok (calcF : Submission → Calculations) (imdF : String → Option Nat)
    (genID salt ip : String) (st : Store) (data : Submission)
    (herr : (calcF data).errors = []) :
    calculateHandler calcF imdF genID salt ip st data =
      { resp := ⟨200, .calcResult genID (calcF data)⟩
        store := (genID, createdRecord calcF imdF genID salt ip data) :: st
        events :=
          (if truthyStr data.patientHash then [Event.hashEv (strVal data.patientHash)] else []) ++
          (if truthyStr data.patientPostcode then [Event.imdEv (strVal data.patientPostcode)] else []) ++
          [Event.genEv, Event.insertEv genID] } := by
  simp [calculateHandler, insertCalculateData, herr]

/-- Looking up the key just inserted returns the inserted record. -/
theorem updateCheck_head (id : String) (r : AuditRecord) (st : Store) :
    updateCheck ((id, r) :: st) id = some r := by
  simp [updateCheck]

/-- `updateCheck` after `updateData`: the looked-up record is the stored one,
with only the preventable-factors field replaced when the keys agree. -/
theorem updateCheck_updateData (st : Store) (u : UpdateSubmission) (id : String) :
    updateCheck (updateData st u) id =
      (updateCheck st id).map (fun r =>
        if id = u.auditID then { r with preventableFactors := some u.preventableFactors }
        else r) := by
  induction st with
  | nil => rfl
  | cons p t ih =>
    rcases p with ⟨k, r⟩
    by_cases hid : k = id
    · subst hid
      by_cases hk : k = u.auditID
      · simp [updateData, updateCheck, hk]
      · simp [updateData, updateCheck, hk]
    · by_cases hk : k = u.auditID
      · subst hk
        simp [updateData, updateCheck, hid, ih]
      · simp [updateData, updateCheck, hk, hid, ih]

/-- The update handler leaves the store as-is or applies `updateData`. -/
theorem updateHandler_store_cases (salt : String) (st : Store) (u : UpdateSubmission) :
    (updateHandler salt st u).store = st ∨
    (updateHandler salt st u).store = updateData st u := by
  unfold updateHandler
  rcases updateCheck st u.auditID with - | check
  · left; rfl
  · by_cases hm : check.patientHash = some (rehashPatientHash salt u.patientHash)
    · right; simp [hm]
    · left; simp [hm]

/-- Shared gate fact: a record stored with a null hash sends every update
against its identifier to the 401 branch with no mutation. -/
theorem created_null_hash_gate (calcF : Submission → Calculations)
    (imdF : String → Option Nat) (genID salt ip : String) (st : Store) (data : Submission)
    (herr : (calcF data).errors = []) (hph : truthyStr data.patientHash = false) :
    (∃ r, updateCheck (calculateHandler calcF imdF genID salt ip st data).store genID = some r ∧
        r.patientHash = none) ∧
    ∀ u : UpdateSubmission, u.auditID = genID →
      (updateHandler salt (calculateHandler calcF imdF genID salt ip st data).store u).resp.status
          = 401 ∧
      (updateHandler salt (calculateHandler calcF imdF genID salt ip st data).store u).store =
        (calculateHandler calcF imdF genID salt ip st data).store ∧
      Event.updateEv u.auditID ∉
        (updateHandler salt (calculateHandler calcF imdF genID salt ip st data).store u).events := by
  have hstore : (calculateHandler calcF imdF genID salt ip st data).store =
      (genID, createdRecord calcF imdF genID salt ip data) :: st := by
    rw [calculateHandler_ok calcF imdF genID salt ip st data herr]
  have hrec : (createdRecord calcF imdF genID salt ip data).patientHash = none := by
    simp [createdRecord, hph]
  refine ⟨⟨_, by rw [hstore]; exact updateCheck_head _ _ _, hrec⟩, ?_⟩
  intro u hu
  have hlk : updateCheck (calculateHandler calcF imdF genID salt ip st data).store u.auditID =
      some (createdRecord calcF imdF genID salt ip data) := by
    rw [hstore, hu]
    exact updateCheck_head _ _ _
  unfold updateHandler
  rw [hlk]
  simp [hrec]

/-! ## Claim theorems -/

/-- C3: for every pre-hash string `p` and configured secret `salt`,
`rehashPatientHash` equals the hex SHA-256 digest of `p` concatenated with the
secret; the output is fixed-length (64 characters) lower-case hexadecimal; and
the function is a pure deterministic function of `(p, salt)`: equal inputs and
equal secrets give identical output. -/
theorem rehash_is_salted_sha256_hex (salt p : String) :
    rehashPatientHash salt p = toHexStr (sha256 (utf8Bytes (p ++ salt))) ∧
    (rehashPatientHash salt p).length = 64 ∧
    (∀ c ∈ (rehashPatientHash salt p).data, c ∈ hexChars) ∧
    (∀ salt2 p2 : String, salt = salt2 → p = p2 →
      rehashPatientHash salt p = rehashPatientHash salt2 p2) := by
  refine ⟨rfl, ?_, ?_, ?_⟩
  · show (toHexStr (sha256 (utf8Bytes (p ++ salt)))).length = 64
    rw [toHexStr_length, sha256_length]
  · intro c hc
    exact toHexStr_mem _ hc
  · rintro s2 p2 rfl rfl
    rfl

/-- C3 witness: the conjuncts of `rehash_is_salted_sha256_hex` at a concrete
fixture secret and pre-hash. -/
theorem rehash_is_salted_sha256_hex_witness :
    (rehashPatientHash "pepper" "abc123").length = 64 ∧
    rehashPatientHash "pepper" "abc123" = rehashPatientHash "pepper" "abc123" :=
  ⟨(rehash_is_salted_sha256_hex "pepper" "abc123").2.1,
   (rehash_is_salted_sha256_hex "pepper" "abc123").2.2.2 "pepper" "abc123" rfl rfl⟩

/-- C9 counterexample: it is NOT the case that distinct pre-hashes always give
distinct server hashes — the digest space is finite (32 bytes) while the input
space is infinite, so some two distinct inputs collide under any fixed salt. -/
theorem rehash_injective_counterexample :
    ¬ (∀ salt p1 p2 : String, p1 ≠ p2 →
        rehashPatientHash salt p1 ≠ rehashPatientHash salt p2) := by
  intro hclaim
  obtain ⟨p, q, hpq, -, -, hcoll⟩ := rehash_collision ""
  exact hclaim "" p q hpq hcoll

/-- C9 amended: distinctness of outputs holds for concrete fixed test strings
(under a fixture secret), not universally — which is how the spec itself
qualifies the property ("tested via concrete fixed strings, not proof"). -/
theorem rehash_distinct_on_fixed_strings :
    rehashPatientHash "pepper" "abc123" ≠ rehashPatientHash "pepper" "def456" ∧
    rehashPatientHash "" "abc" ≠ rehashPatientHash "" "abd" := by
  constructor
  · decide
  · decide

/-- C1: when the auditID resolves to a stored record, the amendment is applied
if and only if the re-derived server hash equals the stored `patientHash`
byte-for-byte; on mismatch the handler returns 401 with a message naming the
auditID (and no hash value — the body is a function of the auditID alone) and
performs no mutation of the store. -/
theorem update_identity_gate (salt : String) (st : Store) (u : UpdateSubmission)
    (r : AuditRecord) (h : updateCheck st u.auditID = some r) :
    (Event.updateEv u.auditID ∈ (updateHandler salt st u).events ↔
      r.patientHash = some (rehashPatientHash salt u.patientHash)) ∧
    (r.patientHash = some (rehashPatientHash salt u.patientHash) →
      (updateHandler salt st u).resp.status = 200 ∧
      (updateHandler salt st u).store = updateData st u) ∧
    (r.patientHash ≠ some (rehashPatientHash salt u.patientHash) →
      (updateHandler salt st u).resp.status = 401 ∧
      (updateHandler salt st u).resp.body =
        .text ("Patient NHS number or date of birth do not match for episode with audit ID: "
          ++ u.auditID) ∧
      (updateHandler salt st u).store = st) := by
  unfold updateHandler
  rw [h]
  by_cases hm : r.patientHash = some (rehashPatientHash salt u.patientHash)
  · simp [hm]
  · simp [hm]

/-- C1 witness: `update_identity_gate` at a concrete store and matching
submission. -/
theorem update_identity_gate_witness :
    updateCheck stFix uFix.auditID = some recFix ∧
    recFix.patientHash = some (rehashPatientHash "s" uFix.patientHash) ∧
    (updateHandler "s" stFix uFix).resp.status = 200 ∧
    (updateHandler "s" stFix uFix).store = updateData stFix uFix :=
  ⟨rfl, rfl, ((update_identity_gate "s" stFix uFix recFix rfl).2.1 rfl).1,
   ((update_identity_gate "s" stFix uFix recFix rfl).2.1 rfl).2⟩

/-- C2: a record created from a submission with an absent patient pre-hash is
stored with a null `patientHash`, and every subsequent update against that
record yields 401, never passes the verification gate (no update effect), and
mutates nothing. -/
theorem null_prehash_never_verifies (calcF : Submission → Calculations)
    (imdF : String → Option Nat) (genID salt ip : String) (st : Store) (data : Submission)
    (herr : (calcF data).errors = []) (hph : data.patientHash = none) :
    (∃ r, updateCheck (calculateHandler calcF imdF genID salt ip st data).store genID = some r ∧
        r.patientHash = none) ∧
    ∀ u : UpdateSubmission, u.auditID = genID →
      (updateHandler salt (calculateHandler calcF imdF genID salt ip st data).store u).resp.status
          = 401 ∧
      (updateHandler salt (calculateHandler calcF imdF genID salt ip st data).store u).store =
        (calculateHandler calcF imdF genID salt ip st data).store ∧
      Event.updateEv u.auditID ∉
        (updateHandler salt (calculateHandler calcF imdF genID salt ip st data).store u).events :=
  created_null_hash_gate calcF imdF genID salt ip st data herr (by rw [hph]; rfl)

/-- C2 witness: `null_prehash_never_verifies` at a concrete submission with an
absent pre-hash, updated with an arbitrary pre-hash. -/
theorem null_prehash_never_verifies_witness :
    (calcOkF subEmpty).errors = [] ∧ subEmpty.patientHash = none ∧
    (updateHandler "s" (calculateHandler calcOkF imdNone "gid" "s" "ip" [] subEmpty).store
        ⟨"gid", "anyPreHash", []⟩).resp.status = 401 :=
  ⟨rfl, rfl,
   ((null_prehash_never_verifies calcOkF imdNone "gid" "s" "ip" [] subEmpty rfl rfl).2
      ⟨"gid", "anyPreHash", []⟩ rfl).1⟩

/-- C4: when the clinical-calculation collaborator reports a non-empty errors
list, the calculate handler responds 400 with exactly that errors list, leaves
the store untouched (any identifier absent before stays absent), and invokes
no insert (the event trace is empty). -/
theorem calculation_gate_no_persist (calcF : Submission → Calculations)
    (imdF : String → Option Nat) (genID salt ip : String) (st : Store) (data : Submission)
    (herr : (calcF data).errors ≠ []) :
    (calculateHandler calcF imdF genID salt ip st data).resp.status = 400 ∧
    (calculateHandler calcF imdF genID salt ip st data).resp.body =
      .errorsList (calcF data).errors ∧
    (calculateHandler calcF imdF genID salt ip st data).store = st ∧
    (calculateHandler calcF imdF genID salt ip st data).events = [] ∧
    (∀ a : String,
      Event.insertEv a ∉ (calculateHandler calcF imdF genID salt ip st data).events) ∧
    (∀ id : String, updateCheck st id = none →
      updateCheck (calculateHandler calcF imdF genID salt ip st data).store id = none) := by
  have hout : calculateHandler calcF imdF genID salt ip st data =
      { resp := ⟨400, .errorsList (calcF data).errors⟩, store := st, events := [] } := by
    simp [calculateHandler, herr]
  rw [hout]
  refine ⟨rfl, rfl, rfl, rfl, ?_, ?_⟩
  · intro a
    simp
  · intro id hid
    exact hid

/-- C4 witness: `calculation_gate_no_persist` with the always-rejecting
collaborator on an empty store. -/
theorem calculation_gate_no_persist_witness :
    (calcErrF subEmpty).errors ≠ [] ∧
    (calculateHandler calcErrF imdNone "gid" "s" "ip" [] subEmpty).resp.status = 400 ∧
    (calculateHandler calcErrF imdNone "gid" "s" "ip" [] subEmpty).store = [] :=
  ⟨by simp [calcErrF],
   (calculation_gate_no_persist calcErrF imdNone "gid" "s" "ip" [] subEmpty
      (by simp [calcErrF])).1,
   (calculation_gate_no_persist calcErrF imdNone "gid" "s" "ip" [] subEmpty
      (by simp [calcErrF])).2.2.1⟩

/-- C5: when the auditID is absent from the store, the update handler responds
404 with a message naming the identifier, derives no hash (no hash event in
the trace), and performs no mutation. -/
theorem update_not_found (salt : String) (st : Store) (u : UpdateSubmission)
    (h : updateCheck st u.auditID = none) :
    (updateHandler salt st u).resp.status = 404 ∧
    (updateHandler salt st u).resp.body =
      .text ("Audit ID not found in database: " ++ u.auditID) ∧
    (updateHandler salt st u).store = st ∧
    (updateHandler salt st u).events = [Event.lookupEv u.auditID] ∧
    ∀ p : String, Event.hashEv p ∉ (updateHandler salt st u).events := by
  unfold updateHandler
  rw [h]
  refine ⟨rfl, rfl, rfl, rfl, ?_⟩
  intro p
  simp

/-- C5 witness: `update_not_found` on the empty store. -/
theorem update_not_found_witness :
    updateCheck ([] : Store) ("idX" : String) = none ∧
    (updateHandler "s" [] ⟨"idX", "abc123", []⟩).resp.status = 404 ∧
    (updateHandler "s" [] ⟨"idX", "abc123", []⟩).store = [] :=
  ⟨rfl, (update_not_found "s" [] ⟨"idX", "abc123", []⟩ rfl).1,
   (update_not_found "s" [] ⟨"idX", "abc123", []⟩ rfl).2.2.1⟩

/-- C7: frame condition of the update path — whatever the outcome, every
stored record keeps its `auditID`, `patientHash`, calculation inputs and
results, client IP and decile; only the preventable-factors field may change,
and then only to the submitted amendment fields. -/
theorem update_frame (salt : String) (st : Store) (u : UpdateSubmission) (id : String)
    (r : AuditRecord) (h : updateCheck st id = some r) :
    ∃ r2, updateCheck (updateHandler salt st u).store id = some r2 ∧
      r2.auditID = r.auditID ∧ r2.patientHash = r.patientHash ∧
      r2.calculationInputs = r.calculationInputs ∧ r2.calculations = r.calculations ∧
      r2.clientIP = r.clientIP ∧ r2.imdDecile = r.imdDecile ∧
      (r2.preventableFactors = r.preventableFactors ∨
        r2.preventableFactors = some u.preventableFactors) := by
  rcases updateHandler_store_cases salt st u with hs | hs
  · exact ⟨r, by rw [hs]; exact h, rfl, rfl, rfl, rfl, rfl, rfl, Or.inl rfl⟩
  · rw [hs, updateCheck_updateData, h]
    by_cases hid : id = u.auditID
    · rw [Option.map_some', if_pos hid]
      exact ⟨_, rfl, rfl, rfl, rfl, rfl, rfl, rfl, Or.inr rfl⟩
    · rw [Option.map_some', if_neg hid]
      exact ⟨r, rfl, rfl, rfl, rfl, rfl, rfl, rfl, Or.inl rfl⟩

/-- C7 witness: `update_frame` on the concrete one-record store, amended with
a matching pre-hash; the identifier and hash survive. -/
theorem update_frame_witness :
    updateCheck stFix "id1" = some recFix ∧
    ∃ r2, updateCheck (updateHandler "s" stFix uFix).store "id1" = some r2 ∧
      r2.auditID = recFix.auditID ∧ r2.patientHash = recFix.patientHash ∧
      r2.calculationInputs = recFix.calculationInputs ∧
      r2.calculations = recFix.calculations ∧
      r2.clientIP = recFix.clientIP ∧ r2.imdDecile = recFix.imdDecile ∧
      (r2.preventableFactors = recFix.preventableFactors ∨
        r2.preventableFactors = some uFix.preventableFactors) :=
  ⟨rfl, update_frame "s" stFix uFix "id1" recFix rfl⟩

/-- C10: a submitted empty-string pre-hash is falsy, so it is treated exactly
like an absent pre-hash — the stored `patientHash` is null and the created
record is permanently unamendable through the identity gate (every update
attempt yields 401 and no mutation). -/
theorem empty_prehash_treated_as_absent (calcF : Submission → Calculations)
    (imdF : String → Option Nat) (genID salt ip : String) (st : Store) (data : Submission)
    (herr : (calcF data).errors = []) (hph : data.patientHash = some "") :
    (∃ r, updateCheck (calculateHandler calcF imdF genID salt ip st data).store genID = some r ∧
        r.patientHash = none) ∧
    ∀ u : UpdateSubmission, u.auditID = genID →
      (updateHandler salt (calculateHandler calcF imdF genID salt ip st data).store u).resp.status
          = 401 ∧
      (updateHandler salt (calculateHandler calcF imdF genID salt ip st data).store u).store =
        (calculateHandler calcF imdF genID salt ip st data).store ∧
      Event.updateEv u.auditID ∉
        (updateHandler salt (calculateHandler calcF imdF genID salt ip st data).store u).events :=
  created_null_hash_gate calcF imdF genID salt ip st data herr (by rw [hph]; rfl)

/-- C10 witness: `empty_prehash_treated_as_absent` at a concrete submission
carrying an empty-string pre-hash, updated with the same empty pre-hash. -/
theorem empty_prehash_treated_as_absent_witness :
    (calcOkF subHashEmpty).errors = [] ∧ subHashEmpty.patientHash = some "" ∧
    (updateHandler "s" (calculateHandler calcOkF imdNone "gid" "s" "ip" [] subHashEmpty).store
        ⟨"gid", "", []⟩).resp.status = 401 :=
  ⟨rfl, rfl,
   ((empty_prehash_treated_as_absent calcOkF imdNone "gid" "s" "ip" [] subHashEmpty rfl rfl).2
      ⟨"gid", "", []⟩ rfl).1⟩

/-- C6 counterexample: the round-trip property with the mismatch condition
stated on the raw pre-hashes (`H' ≠ H` fails) is false — the identity gate
compares 32-byte digests, and by pigeonhole two distinct pre-hashes share one,
so for some `H' ≠ H` the amendment succeeds instead of failing with 401. -/
theorem roundtrip_prehash_counterexample :
    ¬ (∀ (salt ip genID : String) (calcF : Submission → Calculations)
          (imdF : String → Option Nat) (st : Store) (data : Submission) (H : String),
        data.patientHash = some H → H ≠ "" → (calcF data).errors = [] →
        (∀ fields : List String,
          (updateHandler salt (calculateHandler calcF imdF genID salt ip st data).store
              ⟨genID, H, fields⟩).resp.status = 200 ∧
          ∃ r, updateCheck (updateHandler salt
                (calculateHandler calcF imdF genID salt ip st data).store
                ⟨genID, H, fields⟩).store genID = some r ∧
            r.preventableFactors = some fields) ∧
        (∀ (Hp : String) (fields : List String), Hp ≠ H →
          (updateHandler salt (calculateHandler calcF imdF genID salt ip st data).store
              ⟨genID, Hp, fields⟩).resp.status = 401 ∧
          (updateHandler salt (calculateHandler calcF imdF genID salt ip st data).store
              ⟨genID, Hp, fields⟩).store =
            (calculateHandler calcF imdF genID salt ip st data).store)) := by
  intro hclaim
  obtain ⟨p, q, hpq, hp, hq, hcoll⟩ := rehash_collision ""
  have h401 := (hclaim "" "ip" "gid" calcOkF imdNone []
      ⟨some p, none, none, none, none, []⟩ p rfl hp rfl).2 q [] (Ne.symm hpq)
  have hrec : (createdRecord calcOkF imdNone "gid" "" "ip"
      ⟨some p, none, none, none, none, []⟩).patientHash = some (rehashPatientHash "" p) := by
    simp [createdRecord, truthyStr, strVal, hp]
  have h200 : (updateHandler ""
      (calculateHandler calcOkF imdNone "gid" "" "ip" [] ⟨some p, none, none, none, none, []⟩).store
      ⟨"gid", q, []⟩).resp.status = 200 := by
    rw [calculateHandler_ok calcOkF imdNone "gid" "" "ip" [] ⟨some p, none, none, none, none, []⟩ rfl]
    simp [updateHandler, updateCheck, hrec, hcoll]
  exact absurd (h401.1.symm.trans h200) (by norm_num)

/-- C6 amended: the round trip holds with the mismatch condition stated on the
derived hashes, as the gate actually compares them: creation with pre-hash `H`
followed by an update resubmitting `H` succeeds and persists the amendment
fields, while an update with any `H'` whose derived server hash differs from
`H`'s yields 401 and leaves the store unchanged. -/
theorem roundtrip_amended (salt ip genID : String) (calcF : Submission → Calculations)
    (imdF : String → Option Nat) (st : Store) (data : Submission) (H : String)
    (hH : data.patientHash = some H) (hne : H ≠ "") (herr : (calcF data).errors = []) :
    (∀ fields : List String,
      (updateHandler salt (calculateHandler calcF imdF genID salt ip st data).store
          ⟨genID, H, fields⟩).resp.status = 200 ∧
      ∃ r, updateCheck (updateHandler salt
            (calculateHandler calcF imdF genID salt ip st data).store
            ⟨genID, H, fields⟩).store genID = some r ∧
        r.preventableFactors = some fields ∧
        r.patientHash = some (rehashPatientHash salt H)) ∧
    (∀ (Hp : String) (fields : List String),
      rehashPatientHash salt Hp ≠ rehashPatientHash salt H →
      (updateHandler salt (calculateHandler calcF imdF genID salt ip st data).store
          ⟨genID, Hp, fields⟩).resp.status = 401 ∧
      (updateHandler salt (calculateHandler calcF imdF genID salt ip st data).store
          ⟨genID, Hp, fields⟩).store =
        (calculateHandler calcF imdF genID salt ip st data).store) := by
  have hrec : (createdRecord calcF imdF genID salt ip data).patientHash =
      some (rehashPatientHash salt H) := by
    simp [createdRecord, truthyStr, strVal, hH, hne]
  have hstore : (calculateHandler calcF imdF genID salt ip st data).store =
      (genID, createdRecord calcF imdF genID salt ip data) :: st := by
    rw [calculateHandler_ok calcF imdF genID salt ip st data herr]
  constructor
  · intro fields
    rw [hstore]
    constructor
    · simp [updateHandler, updateCheck, hrec]
    · refine ⟨{ createdRecord calcF imdF genID salt ip data with
          preventableFactors := some fields }, ?_, rfl, ?_⟩
      · simp [updateHandler, updateCheck, hrec, updateData]
      · exact hrec
  · intro Hp fields hmiss
    rw [hstore]
    have hgate : (createdRecord calcF imdF genID salt ip data).patientHash ≠
        some (rehashPatientHash salt Hp) := by
      rw [hrec]
      intro hcon
      exact hmiss (Option.some.inj hcon).symm
    constructor
    · simp [updateHandler, updateCheck, hgate]
    · simp [updateHandler, updateCheck, hgate]

/-- C6 witness: `roundtrip_amended` at a concrete submission, with a matching
and a non-matching concrete pre-hash (the hash inequality evaluated). -/
theorem roundtrip_amended_witness :
    (calcOkF subH).errors = [] ∧ subH.patientHash = some "abc123" ∧
    ("abc123" : String) ≠ "" ∧
    rehashPatientHash "s" "wrong" ≠ rehashPatientHash "s" "abc123" ∧
    (updateHandler "s" (calculateHandler calcOkF imdNone "gid" "s" "ip" [] subH).store
        ⟨"gid", "abc123", ["pf1"]⟩).resp.status = 200 ∧
    (updateHandler "s" (calculateHandler calcOkF imdNone "gid" "s" "ip" [] subH).store
        ⟨"gid", "wrong", ["pf1"]⟩).resp.status = 401 :=
  ⟨rfl, rfl, by decide, by decide,
   ((roundtrip_amended "s" "ip" "gid" calcOkF imdNone [] subH "abc123" rfl (by decide) rfl).1
      ["pf1"]).1,
   ((roundtrip_amended "s" "ip" "gid" calcOkF imdNone [] subH "abc123" rfl (by decide) rfl).2
      "wrong" ["pf1"] (by decide)).1⟩

/-- C8 counterexample: the stored record does NOT distinguish an omitted
optional numeric from a submitted zero — the JS `|| null` coalescing maps a
zero bicarbonate and an absent bicarbonate to the same stored record (the
whole handler outcome coincides on the two submissions). -/
theorem normalization_zero_counterexample :
    subZero.bicarbonate = some 0 ∧ subEmpty.bicarbonate = none ∧ subZero ≠ subEmpty ∧
    calculateHandler calcOkF imdNone "gid" "s" "ip" [] subZero =
      calculateHandler calcOkF imdNone "gid" "s" "ip" [] subEmpty := by
  refine ⟨rfl, rfl, by decide, ?_⟩
  rfl

/-- C8 amended: optional numeric fields absent from the submission are stored
as null, a marker distinct from zero — but a submitted zero is also stored as
null (JS falsy coalescing), so the stored record does not distinguish omission
from a submitted zero. -/
theorem normalization_conflates_zero_with_absent (calcF : Submission → Calculations)
    (imdF : String → Option Nat) (genID salt ip : String) (st : Store) (data : Submission)
    (herr : (calcF data).errors = []) :
    ∃ r, updateCheck (calculateHandler calcF imdF genID salt ip st data).store genID = some r ∧
      r.calculationInputs.bicarbonate = jsOrNull data.bicarbonate ∧
      r.calculationInputs.glucose = jsOrNull data.glucose ∧
      r.calculationInputs.ketones = jsOrNull data.ketones ∧
      jsOrNull (none : Option Int) = none ∧
      jsOrNull (some (0 : Int)) = none ∧
      (∀ x : Int, x ≠ 0 → jsOrNull (some x) = some x) ∧
      (none : Option Int) ≠ some (0 : Int) := by
  have hstore : (calculateHandler calcF imdF genID salt ip st data).store =
      (genID, createdRecord calcF imdF genID salt ip data) :: st := by
    rw [calculateHandler_ok calcF imdF genID salt ip st data herr]
  refine ⟨createdRecord calcF imdF genID salt ip data,
    by rw [hstore]; exact updateCheck_head _ _ _, rfl, rfl, rfl, rfl, by simp [jsOrNull], ?_,
    by simp⟩
  intro x hx
  simp [jsOrNull, hx]

/-- C8 amended witness: `normalization_conflates_zero_with_absent` at the
zero-bicarbonate submission. -/
theorem normalization_conflates_zero_with_absent_witness :
    (calcOkF subZero).errors = [] ∧
    ∃ r, updateCheck (calculateHandler calcOkF imdNone "gid" "s" "ip" [] subZero).store "gid"
        = some r ∧
      r.calculationInputs.bicarbonate = jsOrNull subZero.bicarbonate ∧
      r.calculationInputs.glucose = jsOrNull subZero.glucose ∧
      r.calculationInputs.ketones = jsOrNull subZero.ketones ∧
      jsOrNull (none : Option Int) = none ∧
      jsOrNull (some (0 : Int)) = none ∧
      (∀ x : Int, x ≠ 0 → jsOrNull (some x) = some x) ∧
      (none : Option Int) ≠ some (0 : Int) :=
  ⟨rfl, normalization_conflates_zero_with_absent calcOkF imdNone "gid" "s" "ip" [] subZero rfl⟩

end DKA
